import Mathlib

/-!
# Verification of the Gita retrieval-and-reranking pipeline

Shallow embedding of the retrieval core (`embeddings/query_faiss.py`) and the
suitability/guidance stage (`reasoning/llm_reasoning.py`).

Modelling conventions:
* Python floats are modelled as exact rationals (`ℚ`); decimal literals such
  as `0.75` denote the exact decimal rational.
* Python dicts produced by the pipeline are modelled as structures, one per
  pipeline stage (`Meta` for corpus metadata records, `Hit` for raw search
  hits, `AdjVerse` after contextual adjustment, `RankedVerse` after
  suitability reranking).
* `list.sort(key=..., reverse=True)` (a stable descending sort) is modelled
  by `List.mergeSort` with the comparison `fun a b => key b ≤ key a`,
  which is likewise stable.
* The external FAISS index search is an input: the pair list
  `hits : List (Int × ℚ)` stands for `zip(indices[0], distances[0])`.
  Python sequence indexing (with negative-index wraparound and `IndexError`
  beyond `-len`) is modelled by `pyGet`; a raised exception is modelled by
  an `Option.none` result of the enclosing function.
-/

/-- Is `p` an initial segment of `l`?  (Char-list analogue of
`str.startswith`, used to build substring search.) -/
def charsLead (p l : List Char) : Bool :=
  match p, l with
  | [], _ => true
  | _ :: _, [] => false
  | a :: ps, b :: cs => a == b && charsLead ps cs

/-- Does `pat` occur contiguously inside `l`?  Models Python's
`pat in text` substring test. -/
def charsHas (pat l : List Char) : Bool :=
  match l with
  | [] => charsLead pat []
  | _ :: cs => charsLead pat l || charsHas pat cs

/-- Python's `kw in s` on strings: substring containment. -/
def strHas (s kw : String) : Bool :=
  charsHas kw.toList s.toList

/-- Python's `any(w in s for w in kws)`. -/
def anyKw (kws : List String) (s : String) : Bool :=
  kws.any (fun kw => strHas s kw)

/-! ## Keyword configuration (literal lists from `query_faiss.py`) -/

def emotional_keywords : List String :=
  ["afraid", "fear", "anxious", "worried", "stressed",
   "overwhelmed", "panic", "nervous", "scared"]

def decision_keywords : List String :=
  ["should i", "confused", "don\x27t know", "uncertain",
   "choice", "decide", "which", "whether"]

def relationship_keywords : List String :=
  ["family", "friend", "colleague", "relationship",
   "conflict", "argument", "partner", "spouse", "parent"]

def career_keywords : List String :=
  ["career", "job", "work", "future", "path",
   "purpose", "goal", "profession", "business"]

def existential_keywords : List String :=
  ["meaning", "why", "life", "death", "purpose of",
   "exist", "point of"]

def social_concern_keywords : List String :=
  ["reputation", "respect", "judged", "what people think",
   "embarrassed", "ashamed", "honor", "image"]

def confrontation_keywords : List String :=
  ["confront", "face", "stand up", "challenge", "difficult situation"]

def battlefield_filter_keywords : List String :=
  ["battlefield", "warrior", "general", "war", "combat",
   "army", "weapon", "fight", "battle"]

def death_filter_keywords : List String :=
  ["death is certain", "rebirth is inevitable",
   "born and die", "dissolution"]

/-! ## Query Contextualizer (`categorize_problem`, `enhance_query_contextual`) -/

/-- The five non-exclusive problem categories. -/
structure ProblemType where
  emotional : Bool
  decision : Bool
  relationship : Bool
  career : Bool
  existential : Bool
deriving DecidableEq, Repr

/-- `categorize_problem` from `query_faiss.py`: each flag starts false and is
set when any keyword of its set occurs in the lowercased query. -/
def categorize_problem (query : String) : ProblemType :=
  let query_lower := query.toLower
  { emotional := anyKw emotional_keywords query_lower
    decision := anyKw decision_keywords query_lower
    relationship := anyKw relationship_keywords query_lower
    career := anyKw career_keywords query_lower
    existential := anyKw existential_keywords query_lower }

/-- `enhance_query_contextual` from `query_faiss.py`. -/
def enhance_query_contextual (query : String) : String :=
  let problem_type := categorize_problem query
  let base := "Practical life guidance: " ++ query
  let contexts :=
    (if problem_type.emotional then ["managing fear and anxiety"] else []) ++
    (if problem_type.decision then ["making clear decisions"] else []) ++
    (if problem_type.career then ["finding purpose and direction"] else []) ++
    (if problem_type.relationship then ["handling interpersonal challenges"] else []) ++
    (if problem_type.existential then ["understanding life\x27s meaning"] else [])
  if contexts.isEmpty then base
  else base ++ (". Focus on: " ++ String.intercalate ", " contexts)

/-! ## Retrieval data model -/

/-- Contextual warning tag attached by the relevance adjuster
(Python strings `'battlefield'` / `'death_rebirth'`; Python `None` is
modelled by `Option.none`). -/
inductive Warning where
  | battlefield
  | death_rebirth
deriving DecidableEq, Repr

/-- A corpus metadata record (`metadata[idx]` in `search_gita`).  The
`verse.get("themes", [])` / `verse.get("is_practical", False)` defaults are
folded into the fields. -/
structure Meta where
  chapter : Nat
  verse : Nat
  sanskrit : String
  english : String
  themes : List String
  is_practical : Bool
deriving DecidableEq, Repr

/-- A raw search hit as built in `search_gita` before contextual filtering. -/
structure Hit where
  score : ℚ
  chapter : Nat
  verse : Nat
  sanskrit : String
  english : String
  themes : List String
  is_practical : Bool
deriving DecidableEq, Repr

/-- A candidate after `filter_context_specific_verses`: the raw hit plus
`context_warning` and `relevance_adjusted`. -/
structure AdjVerse where
  score : ℚ
  chapter : Nat
  verse : Nat
  sanskrit : String
  english : String
  themes : List String
  is_practical : Bool
  context_warning : Option Warning
  relevance_adjusted : ℚ
deriving DecidableEq, Repr

/-- Attach a warning and adjusted score to a raw hit. -/
def Hit.withAdj (v : Hit) (w : Option Warning) (adj : ℚ) : AdjVerse :=
  ⟨v.score, v.chapter, v.verse, v.sanskrit, v.english, v.themes, v.is_practical, w, adj⟩

/-- Loop body of `filter_context_specific_verses`: classify one verse text and
apply the first matching adjustment branch.  `is_social_concern` and
`is_confrontation` are precomputed from the query (as in the source, where
they are computed once before the loop). -/
def adjust_one (is_social_concern is_confrontation : Bool) (user_problem : String)
    (verse : Hit) : AdjVerse :=
  let text_lower := verse.english.toLower
  let is_battlefield := anyKw battlefield_filter_keywords text_lower
  let is_death_focused := anyKw death_filter_keywords text_lower
  if is_battlefield && !(is_social_concern || is_confrontation) then
    verse.withAdj (some Warning.battlefield) (verse.score * 0.75)
  else if is_death_focused && !(categorize_problem user_problem).existential then
    verse.withAdj (some Warning.death_rebirth) (verse.score * 0.80)
  else
    verse.withAdj none verse.score

/-- Stable descending sort on `relevance_adjusted`
(`filtered.sort(key=lambda x: x['relevance_adjusted'], reverse=True)`). -/
def sortByAdjusted (l : List AdjVerse) : List AdjVerse :=
  l.mergeSort (fun a b => decide (b.relevance_adjusted ≤ a.relevance_adjusted))

/-- `filter_context_specific_verses` from `query_faiss.py`. -/
def filter_context_specific_verses (results : List Hit) (user_problem : String) :
    List AdjVerse :=
  let query_lower := user_problem.toLower
  let is_social_concern := anyKw social_concern_keywords query_lower
  let is_confrontation := anyKw confrontation_keywords query_lower
  sortByAdjusted (results.map (adjust_one is_social_concern is_confrontation user_problem))

/-! ## `search_gita` -/

/-- Python sequence indexing `l[i]`: non-negative indexing, negative indexes
wrap from the end, and an index below `-len l` (or at/above `len l`) yields
`none`, modelling the raised `IndexError`. -/
def pyGet (l : List Meta) (i : Int) : Option Meta :=
  if 0 ≤ i then l[i.toNat]?
  else if (-i).toNat ≤ l.length then l[l.length - (-i).toNat]?
  else none

/-- The result-building loop of `search_gita`
(`for idx, score in zip(indices[0], distances[0]): ...`): an index with
`idx >= len(metadata)` is skipped (`continue`); any other index is resolved
by Python indexing (so negative indexes wrap, and an `IndexError` — modelled
by `none` — aborts the whole call). -/
def build_results (metadata : List Meta) : List (Int × ℚ) → Option (List Hit)
  | [] => some []
  | (idx, score) :: rest =>
    if (metadata.length : Int) ≤ idx then build_results metadata rest
    else
      match pyGet metadata idx with
      | none => none
      | some verse =>
        (build_results metadata rest).map
          (fun tl => (⟨score, verse.chapter, verse.verse, verse.sanskrit,
                       verse.english, verse.themes, verse.is_practical⟩ : Hit) :: tl)

/-- "Ideal" candidate test from `search_gita`:
`r['is_practical'] and not r.get('context_warning')`. -/
def ideal_pred (r : AdjVerse) : Bool :=
  r.is_practical && r.context_warning.isNone

/-- The `filter_practical` branch of `search_gita`: keep the first five ideal
candidates if there are at least five, otherwise put the ideal ones first and
backfill with the remaining candidates, truncating to five. -/
def select_practical (results : List AdjVerse) : List AdjVerse :=
  let ideal_verses := results.filter ideal_pred
  if 5 ≤ ideal_verses.length then ideal_verses.take 5
  else (ideal_verses ++ results.filter (fun r => !(decide (r ∈ ideal_verses)))).take 5

/-- The tail of `search_gita` after the results list has been built:
context-aware filtering, the practicality selection, and the final re-sort by
adjusted relevance. -/
def post_search (query : String) (results0 : List Hit) (filter_practical : Bool) :
    List AdjVerse :=
  let results1 := filter_context_specific_verses results0 query
  let results2 :=
    if filter_practical then select_practical results1
    else results1.take 5
  sortByAdjusted results2

/-- `search_gita` from `query_faiss.py`, from the FAISS search onwards: the
similarity search output (index/score pairs) and the metadata sequence are
inputs; the embedding model and index loading are external.  `none` models a
raised exception. -/
def search_gita (query : String) (hits : List (Int × ℚ)) (metadata : List Meta)
    (filter_practical : Bool) : Option (List AdjVerse) :=
  (build_results metadata hits).map (fun results0 => post_search query results0 filter_practical)

/-! ## Suitability stage (`llm_reasoning.py`) -/

/-- Context flags returned by `detect_verse_context`. -/
structure VerseContext where
  is_battlefield : Bool
  is_death_focused : Bool
  is_devotional : Bool
  is_cosmic : Bool
  is_universal : Bool
deriving DecidableEq, Repr

def battlefield_context_keywords : List String :=
  ["battlefield", "warrior", "general", "army", "combat",
   "fight", "weapon", "arjun", "fled", "respect for you"]

def death_context_keywords : List String :=
  ["death is certain", "rebirth is inevitable", "born and die",
   "imperishable", "unborn", "eternal soul"]

def devotional_keywords : List String :=
  ["surrender unto me", "devotees", "divine love", "worship",
   "absorbed in me", "refuge in me"]

def cosmic_keywords : List String :=
  ["cosmic form", "universes", "divine form", "celestial",
   "creation and dissolution", "brahma"]

def universal_keywords : List String :=
  ["one who", "one whose", "therefore", "thus", "should",
   "must", "control", "practice", "perform", "abandon"]

/-- `detect_verse_context` from `llm_reasoning.py`.  Note that
`is_universal` is initialized to `True` and the keyword branch only ever
re-assigns `True`, which is kept literally here. -/
def detect_verse_context (verse_text : String) : VerseContext :=
  let text_lower := verse_text.toLower
  { is_battlefield := anyKw battlefield_context_keywords text_lower
    is_death_focused := anyKw death_context_keywords text_lower
    is_devotional := anyKw devotional_keywords text_lower
    is_cosmic := anyKw cosmic_keywords text_lower
    is_universal := if anyKw universal_keywords text_lower then true else true }

def grief_keywords : List String :=
  ["died", "death", "lost someone", "grief", "mourning", "passed away"]

def confrontation_rank_keywords : List String :=
  ["confront", "face", "stand up", "courage", "brave", "difficult situation"]

/-- A candidate after `rank_verses_by_suitability`: the adjusted verse plus
its detected context and `suitability_score`. -/
structure RankedVerse where
  base : AdjVerse
  context : VerseContext
  suitability_score : ℚ
deriving DecidableEq, Repr

/-- Loop body of `rank_verses_by_suitability`: detect the verse's context and
apply the cumulative boost/penalty multipliers, starting from
`verse.get('relevance_adjusted', verse['score'])` (the field is always
present on candidates produced by `search_gita`). -/
def rank_one (is_grief_query is_confrontation_query : Bool) (verse : AdjVerse) :
    RankedVerse :=
  let context := detect_verse_context verse.english
  let s0 := verse.relevance_adjusted
  let s1 :=
    if context.is_death_focused && is_grief_query then s0 * 1.2
    else if context.is_death_focused && !is_grief_query then s0 * 0.7
    else s0
  let s2 :=
    if context.is_battlefield && is_confrontation_query then s1 * 1.1
    else if context.is_battlefield then s1 * 0.8
    else s1
  let s3 := if context.is_universal then s2 * 1.1 else s2
  ⟨verse, context, s3⟩

/-- `rank_verses_by_suitability` from `llm_reasoning.py`. -/
def rank_verses_by_suitability (verses : List AdjVerse) (user_problem : String) :
    List RankedVerse :=
  let problem_lower := user_problem.toLower
  let is_grief_query := anyKw grief_keywords problem_lower
  let is_confrontation_query := anyKw confrontation_rank_keywords problem_lower
  (verses.map (rank_one is_grief_query is_confrontation_query)).mergeSort
    (fun a b => decide (b.suitability_score ≤ a.suitability_score))

/-- Outcome of the suitability/guidance stage before the external LLM call:
either the explicit insufficient-confidence message (no candidate forwarded)
or dispatch of the top candidates to the guidance generator. -/
inductive ReasonOutcome where
  | low_confidence
  | dispatch (top_verses : List RankedVerse)
deriving DecidableEq, Repr

/-- The decision logic of `reason_over_verses` from `llm_reasoning.py`:
filter by the minimum raw-score threshold, short-circuit with the
insufficient-confidence message when nothing clears it, otherwise rerank and
forward the top 3 verses to the external guidance generator (the prompt
assembly and API call themselves are external effects). -/
def reason_over_verses (user_problem : String) (retrieved_verses : List AdjVerse) :
    ReasonOutcome :=
  let good_verses := retrieved_verses.filter (fun v => decide ((0.30 : ℚ) < v.score))
  if good_verses.isEmpty then ReasonOutcome.low_confidence
  else ReasonOutcome.dispatch ((rank_verses_by_suitability good_verses user_problem).take 3)

/-! ## Claim-side definition for the enhanced-query format (C9) -/

/-- The enhanced-query format as the specification states it: the fixed
prefix, then the raw query, then — when at least one problem category is
true — the canonical focus phrases of exactly the true categories, joined in
the fixed order emotional, decision, career, relationship, existential. -/
def spec_enhanced_query (query : String) : String :=
  let pt := categorize_problem query
  let phrases :=
    (([(pt.emotional, "managing fear and anxiety"),
       (pt.decision, "making clear decisions"),
       (pt.career, "finding purpose and direction"),
       (pt.relationship, "handling interpersonal challenges"),
       (pt.existential, "understanding life\x27s meaning")].filter
        (fun p => p.1)).map (fun p => p.2))
  if phrases.isEmpty then "Practical life guidance: " ++ query
  else ("Practical life guidance: " ++ query) ++
    (". Focus on: " ++ String.intercalate ", " phrases)

/-! ## Concrete instances used by counterexamples and witnesses -/

/-- Eight-entry corpus slice: six non-practical and two practical records,
none of whose texts contain any risk keyword. -/
def meta8 : List Meta :=
  [⟨1, 1, "s1", "calm action one", [], false⟩,
   ⟨1, 2, "s2", "calm action two", [], false⟩,
   ⟨1, 3, "s3", "calm action three", [], false⟩,
   ⟨1, 4, "s4", "calm action four", [], false⟩,
   ⟨1, 5, "s5", "calm action five", [], false⟩,
   ⟨1, 6, "s6", "calm action six", [], false⟩,
   ⟨1, 7, "s7", "calm action seven", [], true⟩,
   ⟨1, 8, "s8", "calm action eight", [], true⟩]

/-- Eight similarity hits for `meta8`, scores descending; the two practical
records score lowest. -/
def hits8 : List (Int × ℚ) :=
  [(0, 0.9), (1, 0.8), (2, 0.7), (3, 0.6), (4, 0.55), (5, 0.5), (6, 0.45), (7, 0.4)]

/-- Three-entry corpus slice with keyword-free texts. -/
def meta3 : List Meta :=
  [⟨1, 1, "s1", "calm one", [], false⟩,
   ⟨1, 2, "s2", "calm two", [], false⟩,
   ⟨1, 3, "s3", "calm three", [], false⟩]

/-- One-entry corpus slice. -/
def meta1 : List Meta := [⟨2, 5, "s", "calm", [], true⟩]

/-- A practical battlefield-flagged hit with raw score zero. -/
def hit_war_zero : Hit := ⟨0, 1, 1, "s", "the warrior", [], true⟩

/-- A practical battlefield-flagged hit with raw score one half. -/
def hit_war_half : Hit := ⟨0.5, 1, 1, "s", "the warrior", [], true⟩

/-- Scenario B candidate: battlefield/warrior text, raw score 0.55. -/
def hit_battle_55 : Hit := ⟨0.55, 2, 3, "s", "On the battlefield the warrior stands firm", [], false⟩

/-- Scenario B query: non-confrontational, non-social, non-existential. -/
def desk_query : String := "How do I stay calm at my desk job?"

/-- An adjusted candidate below the confidence threshold. -/
def verse_low : AdjVerse := ⟨0.2, 1, 1, "s", "calm", [], true, none, 0.2⟩

/-- An adjusted candidate above the confidence threshold. -/
def verse_high : AdjVerse := ⟨0.5, 1, 2, "s", "calm", [], true, none, 0.5⟩

/-- Witness corpus for the quota: five practical keyword-free records. -/
def meta5 : List Meta :=
  [⟨3, 1, "t1", "calm steady one", [], true⟩,
   ⟨3, 2, "t2", "calm steady two", [], true⟩,
   ⟨3, 3, "t3", "calm steady three", [], true⟩,
   ⟨3, 4, "t4", "calm steady four", [], true⟩,
   ⟨3, 5, "t5", "calm steady five", [], true⟩]

/-- Similarity hits for `meta5`, scores descending. -/
def hits5 : List (Int × ℚ) :=
  [(0, 0.9), (1, 0.8), (2, 0.7), (3, 0.6), (4, 0.5)]

/-- The hit list `build_results` produces for `meta5`/`hits5`. -/
def results0_5 : List Hit :=
  [⟨0.9, 3, 1, "t1", "calm steady one", [], true⟩,
   ⟨0.8, 3, 2, "t2", "calm steady two", [], true⟩,
   ⟨0.7, 3, 3, "t3", "calm steady three", [], true⟩,
   ⟨0.6, 3, 4, "t4", "calm steady four", [], true⟩,
   ⟨0.5, 3, 5, "t5", "calm steady five", [], true⟩]

/-- The hit list `build_results` produces for `meta8`/`hits8`. -/
def results0_c1 : List Hit :=
  [⟨0.9, 1, 1, "s1", "calm action one", [], false⟩,
   ⟨0.8, 1, 2, "s2", "calm action two", [], false⟩,
   ⟨0.7, 1, 3, "s3", "calm action three", [], false⟩,
   ⟨0.6, 1, 4, "s4", "calm action four", [], false⟩,
   ⟨0.55, 1, 5, "s5", "calm action five", [], false⟩,
   ⟨0.5, 1, 6, "s6", "calm action six", [], false⟩,
   ⟨0.45, 1, 7, "s7", "calm action seven", [], true⟩,
   ⟨0.4, 1, 8, "s8", "calm action eight", [], true⟩]

/-- The duplicated result list returned in the sentinel scenario. -/
def out_c6 : List AdjVerse :=
  [⟨0.9, 2, 5, "s", "calm", [], true, none, 0.9⟩,
   ⟨0.5, 2, 5, "s", "calm", [], true, none, 0.5⟩]

/-! ## Helper lemmas about the sorting steps -/

/-- The descending comparison on adjusted relevance is transitive. -/
theorem adjLe_trans (a b c : AdjVerse) :
    decide (b.relevance_adjusted ≤ a.relevance_adjusted) = true →
    decide (c.relevance_adjusted ≤ b.relevance_adjusted) = true →
    decide (c.relevance_adjusted ≤ a.relevance_adjusted) = true := by
  simp only [decide_eq_true_eq]
  exact fun h1 h2 => le_trans h2 h1

/-- The descending comparison on adjusted relevance is total. -/
theorem adjLe_total (a b : AdjVerse) :
    (decide (b.relevance_adjusted ≤ a.relevance_adjusted) ||
     decide (a.relevance_adjusted ≤ b.relevance_adjusted)) = true := by
  simp only [Bool.or_eq_true, decide_eq_true_eq]
  exact le_total _ _

/-- `sortByAdjusted` permutes its input. -/
theorem sortByAdjusted_perm (l : List AdjVerse) : List.Perm (sortByAdjusted l) l :=
  List.mergeSort_perm l _

/-- The output of `sortByAdjusted` is sorted (weakly descending on
`relevance_adjusted`). -/
theorem sortByAdjusted_pairwise (l : List AdjVerse) :
    (sortByAdjusted l).Pairwise
      (fun a b => b.relevance_adjusted ≤ a.relevance_adjusted) := by
  have h := @List.sorted_mergeSort AdjVerse
    (fun a b : AdjVerse => decide (b.relevance_adjusted ≤ a.relevance_adjusted))
    adjLe_trans adjLe_total l
  exact h.imp (fun hab => of_decide_eq_true hab)

/-- `sortByAdjusted` leaves an already-sorted list unchanged. -/
theorem sortByAdjusted_of_pairwise {l : List AdjVerse}
    (h : l.Pairwise (fun a b => b.relevance_adjusted ≤ a.relevance_adjusted)) :
    sortByAdjusted l = l :=
  List.mergeSort_of_sorted (h.imp (fun hab => decide_eq_true hab))

/-- The adjuster's output is sorted weakly descending on adjusted relevance. -/
theorem filter_context_pairwise (results : List Hit) (q : String) :
    (filter_context_specific_verses results q).Pairwise
      (fun a b => b.relevance_adjusted ≤ a.relevance_adjusted) :=
  sortByAdjusted_pairwise _

/-- Membership in the adjuster's output is exactly membership in the image of
the per-candidate adjustment. -/
theorem mem_filter_context (results : List Hit) (q : String) (v : AdjVerse) :
    v ∈ filter_context_specific_verses results q ↔
    ∃ hit ∈ results,
      v = adjust_one (anyKw social_concern_keywords q.toLower)
            (anyKw confrontation_keywords q.toLower) q hit := by
  unfold filter_context_specific_verses sortByAdjusted
  rw [List.mem_mergeSort, List.mem_map]
  constructor
  · rintro ⟨hit, hmem, rfl⟩; exact ⟨hit, hmem, rfl⟩
  · rintro ⟨hit, hmem, rfl⟩; exact ⟨hit, hmem, rfl⟩

/-! ## C9: enhanced-query format -/

/-- C9: for every query string, the enhanced query equals the fixed prefix
"Practical life guidance: " followed by the raw query and, when at least one
problem category is true, by the canonical focus phrases of exactly the true
categories joined in the fixed order emotional, decision, career,
relationship, existential; a query matching no category keeps only the
prefixed raw query. -/
theorem enhanced_query_format (q : String) :
    enhance_query_contextual q = spec_enhanced_query q := by
  simp only [enhance_query_contextual, spec_enhanced_query]
  generalize categorize_problem q = pt
  obtain ⟨e, d, r, c, x⟩ := pt
  cases e <;> cases d <;> cases r <;> cases c <;> cases x <;> rfl

/-! ## C4: first-matching-branch adjustment -/

/-- C4: the relevance adjuster applies exactly the first matching branch to
each candidate: battlefield-flagged text with a query that is neither a
social concern nor a confrontation gets `warning = battlefield` and
`adjustedScore = rawScore × 0.75`; otherwise a death-focused text with a
query not classified existential gets `warning = death_rebirth` and
`adjustedScore = rawScore × 0.80`; otherwise `warning = none` and the score
is unchanged.  The last conjunct identifies `adjust_one` as the
per-candidate behaviour of `filter_context_specific_verses`. -/
theorem adjuster_first_matching_branch (q : String) (v : Hit) :
    (anyKw battlefield_filter_keywords v.english.toLower = true →
      anyKw social_concern_keywords q.toLower = false →
      anyKw confrontation_keywords q.toLower = false →
      (adjust_one (anyKw social_concern_keywords q.toLower)
          (anyKw confrontation_keywords q.toLower) q v).context_warning =
            some Warning.battlefield ∧
      (adjust_one (anyKw social_concern_keywords q.toLower)
          (anyKw confrontation_keywords q.toLower) q v).relevance_adjusted =
            v.score * 0.75)
    ∧ ((anyKw battlefield_filter_keywords v.english.toLower &&
          !(anyKw social_concern_keywords q.toLower ||
            anyKw confrontation_keywords q.toLower)) = false →
        anyKw death_filter_keywords v.english.toLower = true →
        (categorize_problem q).existential = false →
        (adjust_one (anyKw social_concern_keywords q.toLower)
            (anyKw confrontation_keywords q.toLower) q v).context_warning =
              some Warning.death_rebirth ∧
        (adjust_one (anyKw social_concern_keywords q.toLower)
            (anyKw confrontation_keywords q.toLower) q v).relevance_adjusted =
              v.score * 0.80)
    ∧ ((anyKw battlefield_filter_keywords v.english.toLower &&
          !(anyKw social_concern_keywords q.toLower ||
            anyKw confrontation_keywords q.toLower)) = false →
        (anyKw death_filter_keywords v.english.toLower &&
          !(categorize_problem q).existential) = false →
        (adjust_one (anyKw social_concern_keywords q.toLower)
            (anyKw confrontation_keywords q.toLower) q v).context_warning = none ∧
        (adjust_one (anyKw social_concern_keywords q.toLower)
            (anyKw confrontation_keywords q.toLower) q v).relevance_adjusted =
              v.score)
    ∧ filter_context_specific_verses [v] q =
        [adjust_one (anyKw social_concern_keywords q.toLower)
          (anyKw confrontation_keywords q.toLower) q v] := by
  refine ⟨?_, ?_, ?_, ?_⟩
  · intro hb hs hc
    simp only [adjust_one, hb, hs, hc, Bool.or_self, Bool.not_false, Bool.and_self,
      if_true, Hit.withAdj]
    exact ⟨by first | rfl | trivial, by first | rfl | trivial⟩
  · intro hfirst hd hx
    simp only [adjust_one, hfirst, hd, hx, Bool.not_false, Bool.and_true,
      Bool.false_eq_true, if_false, if_true, Hit.withAdj]
    exact ⟨by first | rfl | trivial, by first | rfl | trivial⟩
  · intro hfirst hsecond
    simp only [adjust_one, hfirst, hsecond, Bool.false_eq_true, if_false, Hit.withAdj]
    exact ⟨by first | rfl | trivial, by first | rfl | trivial⟩
  · simp only [filter_context_specific_verses, List.map_cons, List.map_nil, sortByAdjusted,
      List.mergeSort_singleton]

/-- Witness for C4: Scenario B — the battlefield candidate with raw score
0.55 against the non-social, non-confrontational desk-job query gets the
battlefield warning and adjusted score 0.4125. -/
theorem adjuster_first_matching_branch_witness :
    (adjust_one (anyKw social_concern_keywords desk_query.toLower)
        (anyKw confrontation_keywords desk_query.toLower) desk_query
        hit_battle_55).context_warning = some Warning.battlefield
    ∧ (adjust_one (anyKw social_concern_keywords desk_query.toLower)
        (anyKw confrontation_keywords desk_query.toLower) desk_query
        hit_battle_55).relevance_adjusted = 0.4125 := by
  have h := (adjuster_first_matching_branch desk_query hit_battle_55).1
    (by decide!) (by decide!) (by decide!)
  refine ⟨h.1, ?_⟩
  rw [h.2]
  decide!

/-! ## C3: warning monotonicity (corrected) -/

/-- Counterexample to C3 as stated: a battlefield-flagged candidate with
`rawScore = 0` gets `warning = battlefield` but
`adjustedScore = 0 × 0.75 = 0 = rawScore`, not strictly less — so the claim
fails without a positivity precondition on the raw score. -/
theorem warning_monotonicity_cex :
    (filter_context_specific_verses [hit_war_zero] "hello").map
      (fun v => (v.context_warning,
                 decide (v.relevance_adjusted < v.score),
                 decide (v.relevance_adjusted = v.score))) =
    [(some Warning.battlefield, false, true)] := by decide!

/-- C3 amended: every candidate leaving the relevance adjuster with
`warning = none` keeps `adjustedScore = rawScore`; every candidate with a
warning has `adjustedScore = rawScore × 0.75` or `rawScore × 0.80`, which is
strictly below `rawScore` exactly when `rawScore > 0` (at `rawScore = 0` the
two are equal). -/
theorem warning_monotonicity_amended (results : List Hit) (q : String)
    (v : AdjVerse) (hv : v ∈ filter_context_specific_verses results q) :
    (v.context_warning = none → v.relevance_adjusted = v.score)
    ∧ (v.context_warning ≠ none →
        (v.relevance_adjusted = v.score * 0.75 ∨
         v.relevance_adjusted = v.score * 0.80)
        ∧ (0 < v.score → v.relevance_adjusted < v.score)) := by
  rw [mem_filter_context] at hv
  obtain ⟨hit, -, rfl⟩ := hv
  cases hb1 : (anyKw battlefield_filter_keywords hit.english.toLower &&
      !(anyKw social_concern_keywords q.toLower ||
        anyKw confrontation_keywords q.toLower)) with
  | true =>
    simp only [adjust_one, hb1, if_true, Hit.withAdj]
    refine ⟨fun hw => by simp at hw, fun _ => ⟨Or.inl trivial, fun hs => by nlinarith⟩⟩
  | false =>
    cases hb2 : (anyKw death_filter_keywords hit.english.toLower &&
        !(categorize_problem q).existential) with
    | true =>
      simp only [adjust_one, hb1, hb2, Bool.false_eq_true, if_false, if_true, Hit.withAdj]
      refine ⟨fun hw => by simp at hw, fun _ => ⟨Or.inr trivial, fun hs => by nlinarith⟩⟩
    | false =>
      simp only [adjust_one, hb1, hb2, Bool.false_eq_true, if_false, Hit.withAdj]
      exact ⟨fun _ => trivial, fun hw => absurd rfl hw⟩

/-- Witness for the amended C3: a battlefield candidate with raw score 0.5 is
adjusted to 0.375, strictly below its raw score. -/
theorem warning_monotonicity_amended_witness :
    ((⟨0.5, 1, 1, "s", "the warrior", [], true, some Warning.battlefield, 0.375⟩ :
        AdjVerse).relevance_adjusted =
      (⟨0.5, 1, 1, "s", "the warrior", [], true, some Warning.battlefield, 0.375⟩ :
        AdjVerse).score * 0.75 ∨
     (⟨0.5, 1, 1, "s", "the warrior", [], true, some Warning.battlefield, 0.375⟩ :
        AdjVerse).relevance_adjusted =
      (⟨0.5, 1, 1, "s", "the warrior", [], true, some Warning.battlefield, 0.375⟩ :
        AdjVerse).score * 0.80)
    ∧ (⟨0.5, 1, 1, "s", "the warrior", [], true, some Warning.battlefield, 0.375⟩ :
        AdjVerse).relevance_adjusted <
      (⟨0.5, 1, 1, "s", "the warrior", [], true, some Warning.battlefield, 0.375⟩ :
        AdjVerse).score := by
  have h := (warning_monotonicity_amended [hit_war_half] "hello"
    ⟨0.5, 1, 1, "s", "the warrior", [], true, some Warning.battlefield, 0.375⟩
    (by decide!)).2 (by decide!)
  exact ⟨h.1, h.2 (by decide!)⟩

/-! ## C5: practicality quota -/

/-- C5: when the practical filter is requested and at least five ideal
candidates (practical and unwarned) exist among the adjusted results, the
returned set is exactly the first five ideal candidates in adjusted-score
order, and every returned entry is ideal. -/
theorem practicality_quota (q : String) (hits : List (Int × ℚ))
    (metadata : List Meta) (results0 : List Hit)
    (hb : build_results metadata hits = some results0)
    (h5 : 5 ≤ ((filter_context_specific_verses results0 q).filter ideal_pred).length) :
    search_gita q hits metadata true =
      some (((filter_context_specific_verses results0 q).filter ideal_pred).take 5)
    ∧ ∀ v ∈ ((filter_context_specific_verses results0 q).filter ideal_pred).take 5,
        ideal_pred v = true := by
  constructor
  · have hsorted : (((filter_context_specific_verses results0 q).filter
        ideal_pred).take 5).Pairwise
          (fun a b => b.relevance_adjusted ≤ a.relevance_adjusted) :=
      ((filter_context_pairwise results0 q).filter ideal_pred).take
    simp only [search_gita, hb, Option.map_some', post_search, select_practical]
    rw [if_pos h5]
    simp only [if_true]
    rw [sortByAdjusted_of_pairwise hsorted]
  · intro v hv
    exact (List.mem_filter.mp (List.mem_of_mem_take hv)).2

/-- Witness for C5 at a concrete five-ideal corpus. -/
theorem practicality_quota_witness :
    search_gita "hello" hits5 meta5 true =
      some (((filter_context_specific_verses results0_5 "hello").filter
        ideal_pred).take 5)
    ∧ ∀ v ∈ ((filter_context_specific_verses results0_5 "hello").filter
        ideal_pred).take 5, ideal_pred v = true :=
  practicality_quota "hello" hits5 meta5 results0_5 (by decide!) (by decide!)

/-! ## C1: ideal-first policy (corrected) -/

/-- When fewer than five ideal candidates exist, `select_practical` is the
ideal candidates followed by the non-ideal backfill, truncated to five. -/
theorem select_practical_spec (l : List AdjVerse)
    (hlt : (l.filter ideal_pred).length < 5) :
    select_practical l =
      l.filter ideal_pred ++
        (l.filter (fun r => !(decide (r ∈ l.filter ideal_pred)))).take
          (5 - (l.filter ideal_pred).length) := by
  simp only [select_practical]
  rw [if_neg (Nat.not_le.mpr hlt), List.take_append_eq_append_take,
    List.take_of_length_le (le_of_lt hlt)]

/-- Counterexample to C1 as stated: with `wantPracticalFilter = true`,
`maxResults = 5`, two ideal candidates among eight retrieved, the returned
list does NOT put the ideal entries first: the final re-sort by adjusted
score places the three higher-scoring non-ideal entries before the two ideal
ones.  (The returned *set* is as the claim describes, but the order is by
adjusted score, not ideal-first.) -/
theorem ideal_first_policy_cex :
    build_results meta8 hits8 = some results0_c1
    ∧ ((filter_context_specific_verses results0_c1 "hello").filter
        ideal_pred).length = 2
    ∧ (search_gita "hello" hits8 meta8 true).map
        (fun l => l.map (fun r => (ideal_pred r, r.relevance_adjusted))) =
      some [(false, 0.9), (false, 0.8), (false, 0.7), (true, 0.45), (true, 0.4)] := by
  decide!

/-- C1 amended: with the practical filter on and fewer than `maxResults = 5`
ideal candidates, the returned list consists of all ideal candidates plus
the highest-adjusted non-ideal candidates up to five entries, but its final
order is weakly descending by adjusted score (the final re-sort overrides
the ideal-first placement). -/
theorem ideal_first_policy_amended (q : String) (hits : List (Int × ℚ))
    (metadata : List Meta) (results0 : List Hit)
    (results1 ideal rest : List AdjVerse)
    (hb : build_results metadata hits = some results0)
    (h1 : results1 = filter_context_specific_verses results0 q)
    (hi : ideal = results1.filter ideal_pred)
    (hr : rest = results1.filter (fun r => !(decide (r ∈ ideal))))
    (hlt : ideal.length < 5) :
    ∃ out, search_gita q hits metadata true = some out
      ∧ out.Pairwise (fun a b => b.relevance_adjusted ≤ a.relevance_adjusted)
      ∧ List.Perm out (ideal ++ rest.take (5 - ideal.length))
      ∧ ∀ v ∈ ideal, v ∈ out := by
  subst hr hi h1
  have hsel := select_practical_spec (filter_context_specific_verses results0 q) hlt
  refine ⟨sortByAdjusted (select_practical (filter_context_specific_verses results0 q)),
    ?_, sortByAdjusted_pairwise _, ?_, ?_⟩
  · simp only [search_gita, hb, Option.map_some', post_search]
    rfl
  · rw [hsel]
    exact sortByAdjusted_perm _
  · intro v hv
    have hmem : v ∈ select_practical (filter_context_specific_verses results0 q) := by
      rw [hsel]
      exact List.mem_append_left _ hv
    exact ((sortByAdjusted_perm _).mem_iff).mpr hmem

/-- Witness for the amended C1 at the degenerate empty corpus. -/
theorem ideal_first_policy_amended_witness :
    ∃ out, search_gita "hello" [] [] true = some out
      ∧ out.Pairwise (fun a b => b.relevance_adjusted ≤ a.relevance_adjusted)
      ∧ List.Perm out (([] : List AdjVerse) ++
          (([] : List AdjVerse)).take (5 - ([] : List AdjVerse).length))
      ∧ ∀ v ∈ ([] : List AdjVerse), v ∈ out :=
  ideal_first_policy_amended "hello" [] [] [] [] [] []
    (by decide!) (by decide!) (by decide!) (by decide!) (by decide!)

/-! ## C2: out-of-range index handling (corrected) -/

/-- Counterexample to C2 as stated: the FAISS sentinel `-1` (returned when
the corpus has fewer entries than `k`) is NOT dropped by `search_gita`'s
guard `idx >= len(metadata)`: Python's negative indexing resolves it to the
LAST metadata record, which appears in the results.  Here the sentinel hit
yields a second entry carrying verse (1,3) — the claim predicts a single
result `[(1, 1, 0.9)]`. -/
theorem oob_index_cex :
    (search_gita "hello" [(0, 0.9), (-1, 0.5)] meta3 false).map
      (fun l => l.map (fun r => (r.chapter, r.verse, r.score))) =
    some [(1, 1, 0.9), (1, 3, 0.5)] := by decide!

/-- C2 amended: a hit whose index is at least the metadata length is
silently dropped (no error, no entry); but a `-1` index — FAISS's sentinel —
is not dropped: it resolves, by Python negative indexing, to the last
metadata record and contributes an entry. -/
theorem oob_index_amended (metadata : List Meta) (idx : Int) (s : ℚ)
    (rest : List (Int × ℚ)) :
    ((metadata.length : Int) ≤ idx →
      build_results metadata ((idx, s) :: rest) = build_results metadata rest)
    ∧ (∀ last, metadata.getLast? = some last →
        build_results metadata ((-1, s) :: rest) =
          (build_results metadata rest).map
            (fun tl => (⟨s, last.chapter, last.verse, last.sanskrit, last.english,
                         last.themes, last.is_practical⟩ : Hit) :: tl)) := by
  constructor
  · intro hle
    simp only [build_results]
    rw [if_pos hle]
  · intro last hlast
    have hne : metadata ≠ [] := by
      intro h
      rw [h] at hlast
      simp [List.getLast?] at hlast
    have hlen : 1 ≤ metadata.length := by
      cases metadata with
      | nil => exact absurd rfl hne
      | cons a l => simp
    simp only [build_results]
    rw [if_neg (by omega)]
    have hget : pyGet metadata (-1) = some last := by
      simp only [pyGet]
      rw [if_neg (by omega), if_pos (by simpa using hlen)]
      have : ((-(-1 : Int)).toNat) = 1 := by decide
      rw [this]
      rw [← List.getLast?_eq_getElem?]
      exact hlast
    rw [hget]

/-- Witness for the amended C2: index 3 into the three-entry corpus is
dropped; index `-1` contributes the last record. -/
theorem oob_index_amended_witness :
    build_results meta3 [((3 : Int), 0.7)] = build_results meta3 []
    ∧ build_results meta3 [((-1 : Int), 0.5)] =
        (build_results meta3 []).map
          (fun tl => (⟨0.5, 1, 3, "s3", "calm three", [], false⟩ : Hit) :: tl) :=
  ⟨(oob_index_amended meta3 3 0.7 []).1 (by decide!),
   (oob_index_amended meta3 (-1) 0.5 []).2
     ⟨1, 3, "s3", "calm three", [], false⟩ (by decide!)⟩

/-! ## C6: result bound and verse-identity uniqueness (corrected) -/

/-- Counterexample to C6's uniqueness part: a one-verse corpus queried with
`k = 2` makes FAISS pad with the `-1` sentinel; both hits resolve to the
same record, so the returned result carries the same verse identity (2,5)
twice. -/
theorem ranked_result_unique_cex :
    (search_gita "hello" [(0, 0.9), (-1, 0.5)] meta1 false).map
      (fun l => l.map (fun r => (r.chapter, r.verse))) =
    some [(2, 5), (2, 5)] := by decide!

/-- C6 amended: every successfully returned result list has between 0 and 5
entries; verse-identity uniqueness is NOT guaranteed by the code (duplicates
arise, e.g., from the `-1` sentinel resolving to the last record). -/
theorem ranked_result_bound (q : String) (hits : List (Int × ℚ))
    (metadata : List Meta) (fp : Bool) (out : List AdjVerse)
    (h : search_gita q hits metadata fp = some out) :
    out.length ≤ 5 := by
  unfold search_gita at h
  cases hb : build_results metadata hits with
  | none => rw [hb] at h; exact absurd h (by simp)
  | some r0 =>
    rw [hb] at h
    simp only [Option.map_some', Option.some_inj] at h
    subst h
    simp only [post_search, sortByAdjusted]
    rw [List.length_mergeSort]
    split
    · simp only [select_practical]
      split
      · simp only [List.length_take]
        omega
      · simp only [List.length_take]
        omega
    · simp only [List.length_take]
      omega

/-- Witness for the amended C6 bound at the sentinel scenario. -/
theorem ranked_result_bound_witness : out_c6.length ≤ 5 :=
  ranked_result_bound "hello" [(0, 0.9), (-1, 0.5)] meta1 false out_c6 (by decide!)

/-! ## C7: confidence gate -/

/-- C7: when no retrieved candidate has raw score strictly above 0.30 the
suitability stage short-circuits with the insufficient-confidence outcome
(forwarding nothing — the `low_confidence` outcome carries no candidates);
when at least one candidate clears the threshold it dispatches the top three
reranked survivors instead. -/
theorem confidence_gate (user_problem : String) (retrieved : List AdjVerse) :
    ((∀ v ∈ retrieved, v.score ≤ 0.30) →
      reason_over_verses user_problem retrieved = ReasonOutcome.low_confidence)
    ∧ ((∃ v ∈ retrieved, (0.30 : ℚ) < v.score) →
        reason_over_verses user_problem retrieved =
          ReasonOutcome.dispatch
            ((rank_verses_by_suitability
              (retrieved.filter (fun v => decide ((0.30 : ℚ) < v.score)))
              user_problem).take 3)) := by
  constructor
  · intro hall
    have hnil : retrieved.filter (fun v => decide ((0.30 : ℚ) < v.score)) = [] := by
      rw [List.filter_eq_nil_iff]
      intro v hv
      simp only [decide_eq_true_eq, not_lt]
      exact hall v hv
    simp only [reason_over_verses, hnil, List.isEmpty_nil, if_true]
  · rintro ⟨v, hv, hgt⟩
    have hmem : v ∈ retrieved.filter (fun v => decide ((0.30 : ℚ) < v.score)) :=
      List.mem_filter.mpr ⟨hv, decide_eq_true hgt⟩
    have hne : (retrieved.filter (fun v => decide ((0.30 : ℚ) < v.score))).isEmpty = false := by
      cases hres : retrieved.filter (fun v => decide ((0.30 : ℚ) < v.score)) with
      | nil => rw [hres] at hmem; exact absurd hmem (List.not_mem_nil v)
      | cons a l => simp
    simp only [reason_over_verses, hne, Bool.false_eq_true, if_false]

/-- Witness for C7: a single 0.2-scoring candidate short-circuits; a single
0.5-scoring candidate is dispatched. -/
theorem confidence_gate_witness :
    reason_over_verses "hello" [verse_low] = ReasonOutcome.low_confidence
    ∧ reason_over_verses "hello" [verse_high] =
        ReasonOutcome.dispatch
          ((rank_verses_by_suitability
            ([verse_high].filter (fun v => decide ((0.30 : ℚ) < v.score)))
            "hello").take 3) :=
  ⟨(confidence_gate "hello" [verse_low]).1 (by decide!),
   (confidence_gate "hello" [verse_high]).2 ⟨verse_high, by decide!, by decide!⟩⟩

/-! ## C8: suitability multipliers -/

/-- C8: each candidate entering the suitability reranker gets
`suitabilityScore = adjustedScore × deathFactor × battleFactor ×
universalFactor`, where the death factor is 1.2 for death-focused texts under
a grief-classified problem and 0.7 for death-focused texts otherwise, the
battlefield factor is 1.1 under a confrontation-classified problem and 0.8
otherwise, the universal factor is 1.1 for universal-flagged texts, and each
factor is 1 when its flag does not apply — so a candidate matching nothing
keeps its adjusted score.  The second conjunct identifies `rank_one` as the
per-candidate behaviour of `rank_verses_by_suitability` (which then sorts by
suitability). -/
theorem suitability_multipliers (is_grief is_conf : Bool) (v : AdjVerse)
    (verses : List AdjVerse) (user_problem : String) :
    (rank_one is_grief is_conf v).suitability_score =
      v.relevance_adjusted *
        (if (detect_verse_context v.english).is_death_focused && is_grief then (1.2 : ℚ)
         else if (detect_verse_context v.english).is_death_focused then 0.7 else 1) *
        (if (detect_verse_context v.english).is_battlefield && is_conf then (1.1 : ℚ)
         else if (detect_verse_context v.english).is_battlefield then 0.8 else 1) *
        (if (detect_verse_context v.english).is_universal then (1.1 : ℚ) else 1)
    ∧ List.Perm (rank_verses_by_suitability verses user_problem)
        (verses.map (rank_one (anyKw grief_keywords user_problem.toLower)
          (anyKw confrontation_rank_keywords user_problem.toLower))) := by
  constructor
  · cases hd : (detect_verse_context v.english).is_death_focused <;>
      cases hb : (detect_verse_context v.english).is_battlefield <;>
        cases hu : (detect_verse_context v.english).is_universal <;>
          cases is_grief <;> cases is_conf <;>
            simp only [rank_one, hd, hb, hu, Bool.true_and, Bool.false_and,
              Bool.and_true, Bool.and_false, Bool.and_self, Bool.false_eq_true,
              if_false, if_true, Bool.not_true, Bool.not_false] <;> ring
  · exact List.mergeSort_perm _ _

/-! ## C10: the universal flag is always true -/

/-- C10: `detect_verse_context` returns `is_universal = true` for every verse
text (the flag starts true and no branch clears it); consequently every
candidate processed by the suitability reranker receives the ×1.1 universal
multiplier unconditionally, and — since no achievable product of the
multipliers equals 1 — a candidate's suitability score can coincide with its
adjusted score only when the adjusted score is 0 (never for the
positive-score candidates the pipeline's confidence gate lets through). -/
theorem universal_flag_always (t : String) (is_grief is_conf : Bool)
    (v : AdjVerse) :
    (detect_verse_context t).is_universal = true
    ∧ (rank_one is_grief is_conf v).suitability_score =
        v.relevance_adjusted *
          (if (detect_verse_context v.english).is_death_focused && is_grief then (1.2 : ℚ)
           else if (detect_verse_context v.english).is_death_focused then 0.7 else 1) *
          (if (detect_verse_context v.english).is_battlefield && is_conf then (1.1 : ℚ)
           else if (detect_verse_context v.english).is_battlefield then 0.8 else 1) *
          (1.1 : ℚ)
    ∧ (v.relevance_adjusted ≠ 0 →
        (rank_one is_grief is_conf v).suitability_score ≠ v.relevance_adjusted) := by
  have huniv : ∀ s : String, (detect_verse_context s).is_universal = true := by
    intro s
    simp [detect_verse_context]
  have hsuit : (rank_one is_grief is_conf v).suitability_score =
      v.relevance_adjusted *
        (if (detect_verse_context v.english).is_death_focused && is_grief then (1.2 : ℚ)
         else if (detect_verse_context v.english).is_death_focused then 0.7 else 1) *
        (if (detect_verse_context v.english).is_battlefield && is_conf then (1.1 : ℚ)
         else if (detect_verse_context v.english).is_battlefield then 0.8 else 1) *
        (1.1 : ℚ) := by
    cases hd : (detect_verse_context v.english).is_death_focused <;>
      cases hb : (detect_verse_context v.english).is_battlefield <;>
        cases is_grief <;> cases is_conf <;>
          simp only [rank_one, hd, hb, huniv v.english, Bool.true_and, Bool.false_and,
            Bool.and_true, Bool.and_false, Bool.and_self, Bool.false_eq_true,
            if_false, if_true, Bool.not_true, Bool.not_false] <;> ring
  refine ⟨huniv t, hsuit, fun hne heq => ?_⟩
  rw [hsuit] at heq
  rcases hne.lt_or_lt with hneg | hpos <;>
    (cases hd : (detect_verse_context v.english).is_death_focused <;>
      cases hb : (detect_verse_context v.english).is_battlefield <;>
        cases is_grief <;> cases is_conf <;>
          simp only [hd, hb, Bool.true_and, Bool.false_and, Bool.and_true,
            Bool.and_false, Bool.and_self, Bool.false_eq_true, if_false, if_true] at heq <;>
            nlinarith)

/-- Witness for C10 at a concrete text and a nonzero-adjusted candidate. -/
theorem universal_flag_always_witness :
    (detect_verse_context "calm").is_universal = true
    ∧ (rank_one false false verse_high).suitability_score ≠
        verse_high.relevance_adjusted :=
  ⟨(universal_flag_always "calm" false false verse_high).1,
   (universal_flag_always "calm" false false verse_high).2.2 (by decide!)⟩
